import Mathlib

/-!
Verification of the game session and pronunciation evaluation engine of the
cantonese-word-game repository.  The engine lives in the in-memory ApiClient
(startGame, submitPronunciation, endGame, updateStatistics and its mock data
stores).  JavaScript numbers are embedded as exact rationals extended with the
special values Infinity, negative Infinity and NaN; the Math.random draws that
the code performs are passed in as explicit oracle parameters, and the
randomized array sort comparator is passed in as an oracle comparator applied
through a merge sort (any sort produces a permutation of its input, which is
the only fact the development relies on).
-/

namespace CantoneseGame

/-- A JavaScript number as the mock engine can produce it: an exact rational,
positive or negative Infinity, or NaN. -/
inductive JSNum where
  | num (q : ℚ)
  | posInf
  | negInf
  | nan
deriving DecidableEq

namespace JSNum

/-- JavaScript addition on extended numbers. -/
def add : JSNum → JSNum → JSNum
  | nan, _ => nan
  | _, nan => nan
  | num a, num b => num (a + b)
  | num _, posInf => posInf
  | num _, negInf => negInf
  | posInf, num _ => posInf
  | negInf, num _ => negInf
  | posInf, posInf => posInf
  | negInf, negInf => negInf
  | posInf, negInf => nan
  | negInf, posInf => nan

/-- JavaScript subtraction on extended numbers. -/
def sub : JSNum → JSNum → JSNum
  | nan, _ => nan
  | _, nan => nan
  | num a, num b => num (a - b)
  | num _, posInf => negInf
  | num _, negInf => posInf
  | posInf, num _ => posInf
  | negInf, num _ => negInf
  | posInf, posInf => nan
  | negInf, negInf => nan
  | posInf, negInf => posInf
  | negInf, posInf => negInf

/-- JavaScript multiplication on extended numbers. -/
def mul : JSNum → JSNum → JSNum
  | nan, _ => nan
  | _, nan => nan
  | num a, num b => num (a * b)
  | posInf, num b => if 0 < b then posInf else if b < 0 then negInf else nan
  | num a, posInf => if 0 < a then posInf else if a < 0 then negInf else nan
  | negInf, num b => if 0 < b then negInf else if b < 0 then posInf else nan
  | num a, negInf => if 0 < a then negInf else if a < 0 then posInf else nan
  | posInf, posInf => posInf
  | negInf, negInf => posInf
  | posInf, negInf => negInf
  | negInf, posInf => negInf

/-- JavaScript division on extended numbers: zero divided by zero is NaN, a
nonzero rational divided by zero is a signed Infinity. -/
def div : JSNum → JSNum → JSNum
  | nan, _ => nan
  | _, nan => nan
  | num a, num b =>
    if b = 0 then (if a = 0 then nan else if 0 < a then posInf else negInf)
    else num (a / b)
  | posInf, num b => if b < 0 then negInf else posInf
  | negInf, num b => if b < 0 then posInf else negInf
  | num _, posInf => num 0
  | num _, negInf => num 0
  | posInf, posInf => nan
  | posInf, negInf => nan
  | negInf, posInf => nan
  | negInf, negInf => nan

/-- JavaScript Math.floor: NaN and the infinities are fixed points. -/
def jfloor : JSNum → JSNum
  | num q => num (⌊q⌋ : ℤ)
  | posInf => posInf
  | negInf => negInf
  | nan => nan

/-- JavaScript Math.max: NaN propagates, otherwise the larger value. -/
def jmax : JSNum → JSNum → JSNum
  | nan, _ => nan
  | _, nan => nan
  | posInf, _ => posInf
  | _, posInf => posInf
  | negInf, b => b
  | a, negInf => a
  | num a, num b => num (max a b)

end JSNum

/-- A word record of the word store: {id, text, deckId}. -/
structure Word where
  id : String
  text : String
  deckId : String
deriving DecidableEq

/-- One per-word attempt slot of a game session, as startGame initializes it
and submitPronunciation overwrites it. -/
structure GameWord where
  wordId : String
  word : String
  responseTime : ℕ
  isCorrect : Bool
  timestamp : String
deriving DecidableEq

/-- A game session as the mock engine stores it.  The score is absent until
endGame writes it. -/
structure GameSession where
  id : String
  userId : String
  deckId : String
  startTime : String
  endTime : Option String
  score : Option JSNum
  words : List GameWord
deriving DecidableEq

/-- One tracked wrong word of the per-user statistics. -/
structure WrongWord where
  wordId : String
  word : String
  wrongCount : ℕ
  totalAttempts : ℕ
  ratio : ℚ
deriving DecidableEq

/-- One dated score entry of the per-user statistics. -/
structure ScoreByDate where
  date : String
  score : ℚ
  deckId : Option String
deriving DecidableEq

/-- The per-user statistics record kept in the mockStatistics map. -/
structure GameStatistics where
  totalGames : ℕ
  averageScore : JSNum
  bestScore : JSNum
  currentStreak : ℕ
  longestStreak : ℕ
  scoresByDate : List ScoreByDate
  topWrongWords : List WrongWord
deriving DecidableEq

/-- The request body of submitPronunciation.  The optional audio blob is
ignored by the mock implementation and therefore omitted. -/
structure SubmitPronunciationRequest where
  sessionId : String
  wordId : String
  responseTime : ℕ
deriving DecidableEq

/-- The response of submitPronunciation. -/
structure PronunciationResponse where
  isCorrect : Bool
  feedback : String
deriving DecidableEq

/-- The mutable module state of the mock ApiClient: the word store, the
session list and the statistics map (an insertion-ordered association list,
as a JavaScript Map iterates). -/
structure ApiState where
  mockWords : List Word
  mockGameSessions : List GameSession
  mockStatistics : List (String × GameStatistics)
deriving DecidableEq

/-- getWordsByDeck: the words of the store whose deckId matches. -/
def getWordsByDeck (deckId : String) (st : ApiState) : List Word :=
  st.mockWords.filter (fun w => w.deckId == deckId)

/-- startGame: fetch the deck words, shuffle them with the randomized sort
comparator cmp, build a session whose attempt slots all start incorrect with
response time zero, and append it to the session list.  The session id, the
current user id and the timestamp are passed in as parameters. -/
def startGame (deckId userId sid now : String) (cmp : Word → Word → Bool)
    (st : ApiState) : ApiState × GameSession :=
  let words := getWordsByDeck deckId st
  let shuffledWords := words.mergeSort cmp
  let session : GameSession :=
    { id := sid, userId := userId, deckId := deckId, startTime := now,
      endTime := none, score := none,
      words := shuffledWords.map (fun w =>
        { wordId := w.id, word := w.text, responseTime := 0,
          isCorrect := false, timestamp := now }) }
  ({ st with mockGameSessions := st.mockGameSessions ++ [session] }, session)

/-- Overwrite the first attempt slot with the given word id, as mutating the
object returned by Array.find does. -/
def updateWordInSession (wordId : String) (verdict : Bool) (rt : ℕ) :
    List GameWord → List GameWord
  | [] => []
  | w :: ws =>
    if w.wordId == wordId then
      { w with isCorrect := verdict, responseTime := rt } :: ws
    else
      w :: updateWordInSession wordId verdict rt ws

/-- Replace the first session with the given id, as mutating the object
returned by Array.find does. -/
def replaceSession (sid : String) (t : GameSession) :
    List GameSession → List GameSession
  | [] => []
  | s :: ss => if s.id == sid then t :: ss else s :: replaceSession sid t ss

/-- submitPronunciation: the verdict is the draw r of Math.random compared
against 0.2; if the session is found, the attempt slot of the requested word
is overwritten with the verdict and the reported response time.  There is no
check that the session has ended and no failure path. -/
def submitPronunciation (req : SubmitPronunciationRequest) (r : ℚ)
    (st : ApiState) : ApiState × PronunciationResponse :=
  let verdict : Bool := decide ((1 : ℚ) / 5 < r)
  let sessions :=
    match st.mockGameSessions.find? (fun s => s.id == req.sessionId) with
    | none => st.mockGameSessions
    | some s =>
      replaceSession req.sessionId
        { s with
          words := updateWordInSession req.wordId verdict req.responseTime s.words }
        st.mockGameSessions
  ({ st with mockGameSessions := sessions },
   { isCorrect := verdict,
     feedback := if verdict then "Correct!" else "Try again" })

/-- The score computation of endGame: correct count times 100 minus the floor
of the average response time in seconds times 10, clamped at zero, in
JavaScript arithmetic (the average of an empty word list is 0 / 0 = NaN). -/
def computeScore (ws : List GameWord) : JSNum :=
  let correctCount : ℕ := (ws.filter (fun w => w.isCorrect)).length
  let totalTime : ℕ := (ws.map (fun w => w.responseTime)).sum
  let avgTime := JSNum.div (JSNum.num (totalTime : ℚ)) (JSNum.num (ws.length : ℚ))
  JSNum.jmax (JSNum.num 0)
    (JSNum.sub (JSNum.num ((correctCount : ℚ) * 100))
      (JSNum.mul (JSNum.jfloor (JSNum.div avgTime (JSNum.num 1000)))
        (JSNum.num 10)))

/-- The fresh statistics record used when a user has no entry yet. -/
def defaultStats : GameStatistics :=
  { totalGames := 0, averageScore := JSNum.num 0, bestScore := JSNum.num 0,
    currentStreak := 0, longestStreak := 0, scoresByDate := [],
    topWrongWords := [] }

/-- JavaScript truthiness of the optional score: absent, NaN and 0 are falsy,
every other number is truthy. -/
def scoreTruthy : Option JSNum → Bool
  | some (JSNum.num q) => decide (q ≠ 0)
  | some JSNum.posInf => true
  | some JSNum.negInf => true
  | some JSNum.nan => false
  | none => false

/-- The stored score seen as a bare JSNum (NaN when absent; the code only
reads it behind the truthiness guard, which absent values never pass). -/
def scoreVal (s : Option JSNum) : JSNum := s.getD JSNum.nan

/-- Record one wrong attempt: bump the first matching tracked word, or push a
fresh entry at the end of the list. -/
def bumpWrongWord (w : GameWord) : List WrongWord → List WrongWord
  | [] =>
    [{ wordId := w.wordId, word := w.word, wrongCount := 1,
       totalAttempts := 1, ratio := 1 }]
  | e :: es =>
    if e.wordId == w.wordId then
      { e with
        wrongCount := e.wrongCount + 1,
        totalAttempts := e.totalAttempts + 1,
        ratio := ((e.wrongCount + 1 : ℕ) : ℚ) / ((e.totalAttempts + 1 : ℕ) : ℚ) } :: es
    else e :: bumpWrongWord w es

/-- The forEach loop of updateStatistics over the session words: only wrong
attempts touch the tracked word list. -/
def updateWrongWords (ws : List GameWord) (tw : List WrongWord) : List WrongWord :=
  ws.foldl (fun acc w => if w.isCorrect then acc else bumpWrongWord w acc) tw

/-- updateStatistics on the single statistics record of the session user:
increment totalGames, then (only when the stored score is truthy) fold the
score into averageScore and bestScore, then record the wrong words. -/
def updateStatisticsRecord (s : GameSession) (prior : Option GameStatistics) :
    GameStatistics :=
  let stats0 := prior.getD defaultStats
  let stats1 := { stats0 with totalGames := stats0.totalGames + 1 }
  let stats2 :=
    if scoreTruthy s.score then
      { stats1 with
        averageScore :=
          JSNum.div
            (JSNum.add
              (JSNum.mul stats1.averageScore
                (JSNum.num ((stats1.totalGames - 1 : ℕ) : ℚ)))
              (scoreVal s.score))
            (JSNum.num (stats1.totalGames : ℚ)),
        bestScore := JSNum.jmax stats1.bestScore (scoreVal s.score) }
    else stats1
  { stats2 with topWrongWords := updateWrongWords s.words stats2.topWrongWords }

/-- The statistics map key of a session, userId dash all. -/
def statsKey (s : GameSession) : String := s.userId ++ "-all"

/-- Map.get on the association list. -/
def lookupStat (k : String) : List (String × GameStatistics) → Option GameStatistics
  | [] => none
  | e :: rest => if e.1 == k then some e.2 else lookupStat k rest

/-- Map.set on the association list: overwrite the first entry with the key,
or append a fresh entry. -/
def setStat (k : String) (v : GameStatistics) :
    List (String × GameStatistics) → List (String × GameStatistics)
  | [] => [(k, v)]
  | e :: rest => if e.1 == k then (k, v) :: rest else e :: setStat k v rest

/-- updateStatistics on the statistics map. -/
def updateStatistics (s : GameSession) (m : List (String × GameStatistics)) :
    List (String × GameStatistics) :=
  setStat (statsKey s) (updateStatisticsRecord s (lookupStat (statsKey s) m)) m

/-- endGame: fail if the session id is unknown; otherwise write the computed
score and the end timestamp into the stored session, update the statistics
map with the ended session, and return it.  There is no already-ended guard:
every call recomputes the score and reruns the statistics update. -/
def endGame (sid now : String) (st : ApiState) :
    Except String (ApiState × GameSession) :=
  match st.mockGameSessions.find? (fun s => s.id == sid) with
  | none => Except.error "Session not found"
  | some s =>
    let ended : GameSession :=
      { s with score := some (computeScore s.words), endTime := some now }
    Except.ok
      ({ st with
          mockGameSessions := replaceSession sid ended st.mockGameSessions,
          mockStatistics := updateStatistics ended st.mockStatistics },
       ended)

/-- The state after endGame, when it succeeds. -/
def endGameState (sid now : String) (st : ApiState) : Option ApiState :=
  match endGame sid now st with
  | Except.ok (st2, _) => some st2
  | Except.error _ => none

/-- The score formula exactly as the specification states it, over one
(isCorrect, responseTimeMs) pair per word: max of 0 and correctCount times
100 minus the floor of the average response time in seconds times 10. -/
def specScore (pairs : List (Bool × ℕ)) : ℤ :=
  let correctCount : ℕ := (pairs.filter (fun p => p.1)).length
  let total : ℕ := (pairs.map (fun p => p.2)).sum
  let avg : ℚ := (total : ℚ) / (pairs.length : ℚ)
  max 0 ((correctCount : ℤ) * 100 - ⌊avg / 1000⌋ * 10)

/-- The (isCorrect, responseTimeMs) pairs of a stored session. -/
def sessionPairs (s : GameSession) : List (Bool × ℕ) :=
  s.words.map (fun w => (w.isCorrect, w.responseTime))

/-- The totalGames counter recorded for a user. -/
def totalGamesOf (u : String) (m : List (String × GameStatistics)) : ℕ :=
  ((lookupStat (u ++ "-all") m).getD defaultStats).totalGames

/-- The currentStreak counter recorded for a user. -/
def streakOf (u : String) (m : List (String × GameStatistics)) : ℕ :=
  ((lookupStat (u ++ "-all") m).getD defaultStats).currentStreak

/-- The longestStreak counter recorded for a user. -/
def longestOf (u : String) (m : List (String × GameStatistics)) : ℕ :=
  ((lookupStat (u ++ "-all") m).getD defaultStats).longestStreak

/-- The bestScore recorded for a user. -/
def bestScoreOf (u : String) (m : List (String × GameStatistics)) : JSNum :=
  ((lookupStat (u ++ "-all") m).getD defaultStats).bestScore

/-- A session whose stored score, if present, is a plain rational or NaN; the
scores endGame writes always have this shape. -/
def realScored (s : GameSession) : Prop :=
  ∀ x, s.score = some x → x = JSNum.nan ∨ ∃ q : ℚ, x = JSNum.num q

/-- The three attempts of the specification scenario: correct in 800ms,
incorrect in 1200ms, correct in 500ms. -/
def scenarioWords : List GameWord :=
  [ { wordId := "A", word := "A", responseTime := 800, isCorrect := true,
      timestamp := "t" },
    { wordId := "B", word := "B", responseTime := 1200, isCorrect := false,
      timestamp := "t" },
    { wordId := "C", word := "C", responseTime := 500, isCorrect := true,
      timestamp := "t" } ]

/-! Helper lemmas shared by the claim theorems. -/

theorem find_replaceSession (sid : String) (t s0 : GameSession) (l : List GameSession)
    (ht : t.id = sid) (h : l.find? (fun s => s.id == sid) = some s0) :
    (replaceSession sid t l).find? (fun s => s.id == sid) = some t := by
  induction l with
  | nil => simp [List.find?] at h
  | cons a as ih =>
    by_cases ha : a.id = sid
    · simp [replaceSession, List.find?, ha, ht]
    · have hb : (a.id == sid) = false := by simp [ha]
      have h2 : as.find? (fun s => s.id == sid) = some s0 := by
        simpa [List.find?, hb] using h
      simpa [replaceSession, hb, List.find?] using ih h2

theorem lookupStat_setStat (k kq : String) (v : GameStatistics)
    (m : List (String × GameStatistics)) :
    lookupStat kq (setStat k v m) =
      if kq = k then some v else lookupStat kq m := by
  induction m with
  | nil =>
    by_cases h : kq = k
    · simp [setStat, lookupStat, h]
    · simp [setStat, lookupStat, h, Ne.symm h]
  | cons e rest ih =>
    by_cases he : e.1 = k
    · by_cases hq : kq = k
      · simp [setStat, lookupStat, he, hq]
      · have hek : e.1 ≠ kq := fun hh => hq (hh.symm.trans he)
        simp [setStat, lookupStat, he, hq, Ne.symm hq, hek]
    · by_cases hq : e.1 = kq
      · have hqk : kq ≠ k := fun hh => he (hq.trans hh)
        simp [setStat, lookupStat, he, hq, hqk]
      · simp [setStat, lookupStat, he, hq, ih]

theorem totalGames_updateRecord (s : GameSession) (p : Option GameStatistics) :
    (updateStatisticsRecord s p).totalGames
      = (p.getD defaultStats).totalGames + 1 := by
  unfold updateStatisticsRecord
  by_cases h : scoreTruthy s.score = true <;> simp [h]

theorem streak_updateRecord (s : GameSession) (p : Option GameStatistics) :
    (updateStatisticsRecord s p).currentStreak
      = (p.getD defaultStats).currentStreak := by
  unfold updateStatisticsRecord
  by_cases h : scoreTruthy s.score = true <;> simp [h]

theorem longest_updateRecord (s : GameSession) (p : Option GameStatistics) :
    (updateStatisticsRecord s p).longestStreak
      = (p.getD defaultStats).longestStreak := by
  unfold updateStatisticsRecord
  by_cases h : scoreTruthy s.score = true <;> simp [h]

theorem best_updateRecord (s : GameSession) (p : Option GameStatistics) :
    (updateStatisticsRecord s p).bestScore
      = (if scoreTruthy s.score then
          JSNum.jmax (p.getD defaultStats).bestScore (scoreVal s.score)
         else (p.getD defaultStats).bestScore) := by
  unfold updateStatisticsRecord
  by_cases h : scoreTruthy s.score = true <;> simp [h]

theorem computeScore_eq_specScore (ws : List GameWord) (h : ws ≠ []) :
    computeScore ws
      = JSNum.num ((specScore (ws.map fun w => (w.isCorrect, w.responseTime)) : ℤ) : ℚ) := by
  have hlen : (ws.length : ℚ) ≠ 0 :=
    Nat.cast_ne_zero.mpr (List.length_pos.mpr h).ne'
  have h1000 : (1000 : ℚ) ≠ 0 := by norm_num
  unfold computeScore specScore
  simp only [JSNum.div, hlen, if_neg hlen, if_neg h1000, JSNum.jfloor,
    JSNum.mul, JSNum.sub, JSNum.jmax, JSNum.num.injEq]
  rw [List.filter_map, List.map_map, List.length_map, List.length_map]
  push_cast
  congr 1

theorem computeScore_nil : computeScore [] = JSNum.nan := by
  simp [computeScore, JSNum.div, JSNum.jfloor, JSNum.mul, JSNum.sub, JSNum.jmax]

/-- Claim C1: endGame computes the score of a stored session as
max(0, correctCount * 100 - floor(averageResponseTimeMs / 1000) * 10) over
one (isCorrect, responseTimeMs) pair per word, and the three word scenario
correct in 800ms, incorrect in 1200ms, correct in 500ms scores exactly 200. -/
theorem c1_end_score_formula (st : ApiState) (sid now : String) (s : GameSession)
    (hfind : st.mockGameSessions.find? (fun t => t.id == sid) = some s)
    (hne : s.words ≠ []) :
    (∃ st2, endGame sid now st = Except.ok (st2,
      { s with
          score := some (JSNum.num ((specScore (sessionPairs s) : ℤ) : ℚ)),
          endTime := some now })) ∧
    computeScore scenarioWords = JSNum.num 200 := by
  constructor
  · have hs : computeScore s.words
        = JSNum.num ((specScore (sessionPairs s) : ℤ) : ℚ) := by
      rw [sessionPairs]; exact computeScore_eq_specScore s.words hne
    refine ⟨{ st with
        mockGameSessions := replaceSession sid
          { s with
              score := some (JSNum.num ((specScore (sessionPairs s) : ℤ) : ℚ)),
              endTime := some now } st.mockGameSessions,
        mockStatistics := updateStatistics
          { s with
              score := some (JSNum.num ((specScore (sessionPairs s) : ℤ) : ℚ)),
              endTime := some now } st.mockStatistics }, ?_⟩
    simp only [endGame, hfind, hs]
  · have h36 : ((2500 : ℚ) / 3) / 1000 = 5 / 6 := by norm_num
    have hfl : (⌊(5 : ℚ) / 6⌋ : ℤ) = 0 := by norm_num
    simp only [computeScore, scenarioWords, List.filter, List.map, List.sum,
      JSNum.div, JSNum.jfloor, JSNum.mul, JSNum.sub, JSNum.jmax]
    norm_num [h36, hfl]

/-- Witness for C1 at a concrete state holding the scenario session. -/
def c1Session : GameSession :=
  { id := "session-1", userId := "student-1", deckId := "deck-1",
    startTime := "t0", endTime := none, score := none, words := scenarioWords }

/-- Witness state for C1. -/
def c1State : ApiState :=
  { mockWords := [], mockGameSessions := [c1Session], mockStatistics := [] }

theorem c1_end_score_formula_witness :
    (∃ st2, endGame "session-1" "t1" c1State = Except.ok (st2,
      { c1Session with
          score := some (JSNum.num ((specScore (sessionPairs c1Session) : ℤ) : ℚ)),
          endTime := some "t1" })) ∧
    computeScore scenarioWords = JSNum.num 200 :=
  c1_end_score_formula c1State "session-1" "t1" c1Session (by decide)
    (by simp [c1Session, scenarioWords])

/-- Claim C2 counterexample: grading is not deterministic in the inputs of
the submission.  With an identical request and identical state, the draw 1/2
of Math.random yields a correct verdict while the draw 1/10 yields an
incorrect one; the inputs never reach the verdict at all. -/
def c2Session : GameSession :=
  { id := "session-1", userId := "student-1", deckId := "deck-1",
    startTime := "t0", endTime := none, score := none,
    words := [{ wordId := "word-1", word := "你好", responseTime := 0,
                isCorrect := false, timestamp := "t0" }] }

/-- Counterexample state for C2. -/
def c2State : ApiState :=
  { mockWords := [], mockGameSessions := [c2Session], mockStatistics := [] }

/-- Counterexample request for C2. -/
def c2Request : SubmitPronunciationRequest :=
  { sessionId := "session-1", wordId := "word-1", responseTime := 900 }

theorem c2_not_deterministic :
    (submitPronunciation c2Request (1 / 2) c2State).2.isCorrect = true ∧
    (submitPronunciation c2Request (1 / 10) c2State).2.isCorrect = false := by
  constructor <;>
    · simp only [submitPronunciation]
      norm_num

/-- Claim C2 amended: the verdict of submitPronunciation equals the
comparison of the Math.random draw against 0.2 and depends on nothing else:
any two submissions with the same draw receive the same verdict, whatever
their requests, transcriptions or states. -/
theorem c2_verdict_is_random_draw (req req2 : SubmitPronunciationRequest)
    (r : ℚ) (st st2 : ApiState) :
    (submitPronunciation req r st).2.isCorrect = decide ((1 : ℚ) / 5 < r) ∧
    (submitPronunciation req r st).2.isCorrect
      = (submitPronunciation req2 r st2).2.isCorrect :=
  ⟨rfl, rfl⟩

/-- Counterexample session for C3: one word, answered correctly. -/
def c3Session : GameSession :=
  { id := "session-1", userId := "student-1", deckId := "deck-1",
    startTime := "t0", endTime := none, score := none,
    words := [{ wordId := "word-1", word := "你好", responseTime := 0,
                isCorrect := true, timestamp := "t0" }] }

/-- Counterexample state for C3. -/
def c3State : ApiState :=
  { mockWords := [], mockGameSessions := [c3Session], mockStatistics := [] }

/-- Claim C3 counterexample: endGame is not idempotent.  Ending the same
session twice runs the statistics update twice, leaving totalGames at 2 for
a user who completed a single session, not the 1 the claim requires. -/
theorem c3_end_double_counts :
    ((endGameState "session-1" "t1" c3State).bind
        (endGameState "session-1" "t2")).map
      (fun st => totalGamesOf "student-1" st.mockStatistics) = some 2 ∧
    (2 : ℕ) ≠ 1 := by
  refine ⟨?_, by decide⟩
  simp only [endGameState, endGame, c3State, c3Session, List.find?,
    Option.bind, Option.map, replaceSession, totalGamesOf, updateStatistics,
    statsKey, lookupStat_setStat, totalGames_updateRecord, setStat, lookupStat,
    beq_self_eq_true, if_true, Option.getD_some]
  simp [defaultStats, lookupStat, totalGames_updateRecord]

/-- The session record endGame stores: computed score and end timestamp. -/
def endedSession (now : String) (s : GameSession) : GameSession :=
  { s with score := some (computeScore s.words), endTime := some now }

/-- The state endGame leaves behind when it finds the session s. -/
def endedState (sid now : String) (s : GameSession) (st : ApiState) : ApiState :=
  { st with
      mockGameSessions :=
        replaceSession sid (endedSession now s) st.mockGameSessions,
      mockStatistics := updateStatistics (endedSession now s) st.mockStatistics }

theorem endGame_eq (sid now : String) (st : ApiState) (s : GameSession)
    (hfind : st.mockGameSessions.find? (fun t => t.id == sid) = some s) :
    endGame sid now st
      = Except.ok (endedState sid now s st, endedSession now s) := by
  simp only [endGame, hfind, endedState, endedSession]

/-- Claim C3 amended: a second endGame on the same session returns the same
score (it is recomputed from the unchanged attempts), but the statistics are
incremented once per call, not once per session: the second call pushes the
totalGames of the user up again. -/
theorem c3_second_end_same_score_double_stats (st : ApiState)
    (sid n1 n2 : String) (s : GameSession)
    (hfind : st.mockGameSessions.find? (fun t => t.id == sid) = some s) :
    ∃ st1 g1 st2 g2,
      endGame sid n1 st = Except.ok (st1, g1) ∧
      endGame sid n2 st1 = Except.ok (st2, g2) ∧
      g2.score = g1.score ∧
      totalGamesOf g1.userId st2.mockStatistics
        = totalGamesOf g1.userId st1.mockStatistics + 1 := by
  have hsid : s.id = sid := by simpa using List.find?_some hfind
  have hfind2 : (endedState sid n1 s st).mockGameSessions.find?
      (fun t => t.id == sid) = some (endedSession n1 s) := by
    simp only [endedState]
    exact find_replaceSession sid _ s st.mockGameSessions hsid hfind
  refine ⟨endedState sid n1 s st, endedSession n1 s,
    endedState sid n2 (endedSession n1 s) (endedState sid n1 s st),
    endedSession n2 (endedSession n1 s),
    endGame_eq sid n1 st s hfind,
    endGame_eq sid n2 (endedState sid n1 s st) (endedSession n1 s) hfind2,
    rfl, ?_⟩
  simp only [endedState, endedSession, totalGamesOf, updateStatistics,
    statsKey, lookupStat_setStat, totalGames_updateRecord]
  simp [totalGames_updateRecord]

/-- Witness state for C3 amended, reusing the C3 counterexample state. -/
theorem c3_second_end_same_score_double_stats_witness :
    ∃ st1 g1 st2 g2,
      endGame "session-1" "t1" c3State = Except.ok (st1, g1) ∧
      endGame "session-1" "t2" st1 = Except.ok (st2, g2) ∧
      g2.score = g1.score ∧
      totalGamesOf g1.userId st2.mockStatistics
        = totalGamesOf g1.userId st1.mockStatistics + 1 :=
  c3_second_end_same_score_double_stats c3State "session-1" "t1" "t2"
    c3Session (by decide)

/-- Counterexample attempt slot for C4. -/
def c4Word : GameWord :=
  { wordId := "word-1", word := "你好", responseTime := 0,
    isCorrect := false, timestamp := "t0" }

/-- Counterexample session for C4: already ended. -/
def c4Session : GameSession :=
  { id := "session-1", userId := "student-1", deckId := "deck-1",
    startTime := "t0", endTime := some "t1", score := some (JSNum.num 0),
    words := [c4Word] }

/-- Counterexample state for C4. -/
def c4State : ApiState :=
  { mockWords := [], mockGameSessions := [c4Session], mockStatistics := [] }

/-- Counterexample request for C4. -/
def c4Request : SubmitPronunciationRequest :=
  { sessionId := "session-1", wordId := "word-1", responseTime := 900 }

/-- Claim C4 counterexample: a submission after endGame is not rejected (the
operation has no failure path at all) and it mutates the stored attempt map:
the attempt slot of the word changes from incorrect in 0ms to correct in
900ms on a session whose endTime is already set. -/
theorem c4_late_attempt_mutates :
    (submitPronunciation c4Request 1 c4State).1.mockGameSessions.map
        (fun t => t.words)
      = [[{ c4Word with isCorrect := true, responseTime := 900 }]] ∧
    [[{ c4Word with isCorrect := true, responseTime := 900 }]] ≠ [[c4Word]] := by
  constructor
  · simp only [submitPronunciation, c4State, c4Session, c4Request, c4Word,
      List.find?, replaceSession, updateWordInSession]
    norm_num
    simp [updateWordInSession]
  · decide

/-- Claim C4 amended: submitPronunciation never fails and never checks that
the session has ended: a late attempt is silently applied, overwriting the
stored attempt slot of the requested word even though endTime is set. -/
theorem c4_late_attempt_applied (req : SubmitPronunciationRequest) (r : ℚ)
    (st : ApiState) (s : GameSession)
    (hfind : st.mockGameSessions.find? (fun t => t.id == req.sessionId) = some s)
    (_hended : s.endTime ≠ none) :
    (submitPronunciation req r st).1.mockGameSessions
      = replaceSession req.sessionId
          { s with
              words := updateWordInSession req.wordId (decide ((1 : ℚ) / 5 < r))
                req.responseTime s.words }
          st.mockGameSessions := by
  simp only [submitPronunciation, hfind]

/-- Witness for C4 amended at the C4 counterexample state. -/
theorem c4_late_attempt_applied_witness :
    (submitPronunciation c4Request 1 c4State).1.mockGameSessions
      = replaceSession "session-1"
          { c4Session with
              words := updateWordInSession "word-1" (decide ((1 : ℚ) / 5 < 1))
                900 c4Session.words }
          c4State.mockGameSessions :=
  c4_late_attempt_applied c4Request 1 c4State c4Session (by decide) (by decide)

/-- Counterexample session for C5: one word, answered correctly, first-ever
completion for the user. -/
def c5Session : GameSession :=
  { id := "session-1", userId := "student-1", deckId := "deck-1",
    startTime := "t0", endTime := none, score := none,
    words := [{ wordId := "word-1", word := "你好", responseTime := 0,
                isCorrect := true, timestamp := "t0" }] }

/-- Counterexample state for C5. -/
def c5State : ApiState :=
  { mockWords := [], mockGameSessions := [c5Session], mockStatistics := [] }

/-- Claim C5 counterexample: a first-ever completion does not set
currentStreak to 1 — the streak counters are never written, so the recorded
currentStreak stays 0. -/
theorem c5_first_completion_streak_zero :
    (endGameState "session-1" "t1" c5State).map
      (fun st => streakOf "student-1" st.mockStatistics) = some 0 ∧
    (0 : ℕ) ≠ 1 := by
  refine ⟨?_, by decide⟩
  simp only [endGameState, endGame, c5State, c5Session, List.find?,
    Option.map, replaceSession, streakOf, updateStatistics, statsKey,
    lookupStat_setStat, streak_updateRecord, setStat, lookupStat,
    beq_self_eq_true, if_true, Option.getD_some]
  simp [defaultStats, lookupStat, streak_updateRecord]

/-- Claim C5 amended: ending a session performs no streak update at all: for
every user, currentStreak and longestStreak after endGame equal their prior
recorded values (zero for a fresh record); no calendar-day comparison exists
in the engine. -/
theorem c5_end_preserves_streaks (st : ApiState) (sid now : String)
    (s : GameSession) (u : String)
    (hfind : st.mockGameSessions.find? (fun t => t.id == sid) = some s) :
    ∃ st2 g, endGame sid now st = Except.ok (st2, g) ∧
      streakOf u st2.mockStatistics = streakOf u st.mockStatistics ∧
      longestOf u st2.mockStatistics = longestOf u st.mockStatistics := by
  refine ⟨{ st with
      mockGameSessions := replaceSession sid
        { s with score := some (computeScore s.words), endTime := some now }
        st.mockGameSessions,
      mockStatistics := updateStatistics
        { s with score := some (computeScore s.words), endTime := some now }
        st.mockStatistics },
    { s with score := some (computeScore s.words), endTime := some now },
    by simp only [endGame, hfind], ?_, ?_⟩
  · simp only [streakOf, updateStatistics, statsKey, lookupStat_setStat]
    by_cases hkey : u ++ "-all" = s.userId ++ "-all"
    · simp [hkey, streak_updateRecord]
    · simp [hkey]
  · simp only [longestOf, updateStatistics, statsKey, lookupStat_setStat]
    by_cases hkey : u ++ "-all" = s.userId ++ "-all"
    · simp [hkey, longest_updateRecord]
    · simp [hkey]

/-- Witness for C5 amended at the C5 counterexample state. -/
theorem c5_end_preserves_streaks_witness :
    ∃ st2 g, endGame "session-1" "t1" c5State = Except.ok (st2, g) ∧
      streakOf "student-1" st2.mockStatistics
        = streakOf "student-1" c5State.mockStatistics ∧
      longestOf "student-1" st2.mockStatistics
        = longestOf "student-1" c5State.mockStatistics :=
  c5_end_preserves_streaks c5State "session-1" "t1" c5Session "student-1"
    (by decide)

/-- The attempt slot used by the C6 counterexample sessions. -/
def c6Word (verdict : Bool) : GameWord :=
  { wordId := "word-1", word := "你好", responseTime := 0,
    isCorrect := verdict, timestamp := "t0" }

/-- First C6 session: the word graded correct. -/
def c6SessionA : GameSession :=
  { id := "ga", userId := "student-1", deckId := "deck-1", startTime := "t0",
    endTime := some "t1", score := some (JSNum.num 0), words := [c6Word true] }

/-- Second C6 session: the word graded incorrect. -/
def c6SessionB : GameSession :=
  { id := "gb", userId := "student-1", deckId := "deck-1", startTime := "t0",
    endTime := some "t1", score := some (JSNum.num 0), words := [c6Word false] }

/-- Third C6 session: the word graded incorrect again. -/
def c6SessionC : GameSession :=
  { id := "gc", userId := "student-1", deckId := "deck-1", startTime := "t0",
    endTime := some "t1", score := some (JSNum.num 0), words := [c6Word false] }

/-- The statistics map after the three C6 session-end updates. -/
def c6Map : List (String × GameStatistics) :=
  updateStatistics c6SessionC (updateStatistics c6SessionB
    (updateStatistics c6SessionA []))

/-- Claim C6 counterexample: a word attempted 3 times with 2 incorrect does
not get error ratio 2/3.  The aggregator touches the statistics only for
wrong attempts, so the word ends with totalAttempts 2 (not 3) and ratio 1
(not 2/3). -/
theorem c6_three_attempts_two_wrong_ratio_one :
    ((lookupStat ("student-1" ++ "-all") c6Map).getD defaultStats).topWrongWords.map
        (fun e => (e.wordId, e.wrongCount, e.totalAttempts, e.ratio))
      = [("word-1", 2, 2, (1 : ℚ))] ∧
    ((1 : ℚ) ≠ 2 / 3 ∧ (2 : ℕ) ≠ 3) := by
  constructor
  · simp only [c6Map, updateStatistics, statsKey, c6SessionA, c6SessionB,
      c6SessionC, c6Word, updateStatisticsRecord, scoreTruthy, scoreVal,
      defaultStats, updateWrongWords, List.foldl, bumpWrongWord, setStat,
      lookupStat]
    norm_num
  · constructor <;> norm_num

theorem updateWrongWords_cons (w : GameWord) (ws : List GameWord)
    (tw : List WrongWord) :
    updateWrongWords (w :: ws) tw
      = updateWrongWords ws (if w.isCorrect then tw else bumpWrongWord w tw) := by
  by_cases hc : w.isCorrect <;> simp [updateWrongWords, List.foldl, hc]

theorem bumpWrongWord_inv (w : GameWord) (tw : List WrongWord)
    (hinv : ∀ e ∈ tw, e.wrongCount = e.totalAttempts ∧ e.ratio = 1) :
    ∀ e ∈ bumpWrongWord w tw, e.wrongCount = e.totalAttempts ∧ e.ratio = 1 := by
  induction tw with
  | nil =>
    intro e he
    simp [bumpWrongWord] at he
    subst he
    exact ⟨rfl, rfl⟩
  | cons a as ih =>
    intro e he
    by_cases hw : a.wordId = w.wordId
    · simp only [bumpWrongWord, hw, beq_self_eq_true, if_true,
        List.mem_cons] at he
      rcases he with he | he
      · obtain ⟨h1, _⟩ := hinv a (by simp)
        subst he
        refine ⟨by simp [h1], ?_⟩
        have hnz : ((a.totalAttempts + 1 : ℕ) : ℚ) ≠ 0 := by positivity
        simp only [h1]
        exact div_self hnz
      · exact hinv e (by simp [he])
    · have hb : (a.wordId == w.wordId) = false := by simp [hw]
      simp only [bumpWrongWord, hb, Bool.false_eq_true, if_false,
        List.mem_cons] at he
      rcases he with he | he
      · exact hinv e (by simp [he])
      · exact ih (fun t ht => hinv t (by simp [ht])) e he

theorem updateWrongWords_inv (ws : List GameWord) :
    ∀ tw : List WrongWord,
      (∀ e ∈ tw, e.wrongCount = e.totalAttempts ∧ e.ratio = 1) →
      ∀ e ∈ updateWrongWords ws tw, e.wrongCount = e.totalAttempts ∧ e.ratio = 1 := by
  induction ws with
  | nil => intro tw hinv; exact hinv
  | cons w ws ih =>
    intro tw hinv
    rw [updateWrongWords_cons]
    by_cases hc : w.isCorrect
    · rw [if_pos hc]; exact ih tw hinv
    · rw [if_neg hc]; exact ih _ (bumpWrongWord_inv w tw hinv)

theorem updateWrongWords_filter (ws : List GameWord) :
    ∀ tw : List WrongWord,
      updateWrongWords ws tw
        = updateWrongWords (ws.filter (fun w => !w.isCorrect)) tw := by
  induction ws with
  | nil => intro tw; rfl
  | cons w ws ih =>
    intro tw
    rw [updateWrongWords_cons]
    by_cases hc : w.isCorrect
    · rw [if_pos hc, List.filter_cons]
      simp only [hc, Bool.not_true, Bool.false_eq_true, if_false]
      exact ih tw
    · rw [if_neg hc, List.filter_cons]
      have hb : (!w.isCorrect) = true := by simp [hc]
      simp only [hb, if_true]
      rw [updateWrongWords_cons, if_neg hc]
      exact ih (bumpWrongWord w tw)

/-- Claim C6 amended: on session end only wrong attempts are recorded at all:
the update is unchanged when correct attempts are filtered out, and every
wrong attempt increments wrongCount and totalAttempts together, so wrongCount
always equals totalAttempts and every tracked error ratio is 1. -/
theorem c6_only_wrong_attempts_counted (ws : List GameWord) (tw : List WrongWord)
    (hinv : ∀ e ∈ tw, e.wrongCount = e.totalAttempts ∧ e.ratio = 1) :
    (∀ e ∈ updateWrongWords ws tw, e.wrongCount = e.totalAttempts ∧ e.ratio = 1) ∧
    updateWrongWords ws tw
      = updateWrongWords (ws.filter (fun w => !w.isCorrect)) tw :=
  ⟨updateWrongWords_inv ws tw hinv, updateWrongWords_filter ws tw⟩

/-- Witness for C6 amended: the three scenario attempts folded into an empty
tracked list. -/
theorem c6_only_wrong_attempts_counted_witness :
    (∀ e ∈ updateWrongWords scenarioWords [],
      e.wrongCount = e.totalAttempts ∧ e.ratio = 1) ∧
    updateWrongWords scenarioWords []
      = updateWrongWords (scenarioWords.filter (fun w => !w.isCorrect)) [] :=
  c6_only_wrong_attempts_counted scenarioWords [] (by simp)

/-- Claim C7: startGame returns a permutation of the deck word list: the same
multiset of word ids, the same length, and no duplicates (given the deck ids
are duplicate-free, which the store data model guarantees), whatever the
randomized comparator does. -/
theorem c7_start_is_permutation (st : ApiState) (deckId userId sid now : String)
    (cmp : Word → Word → Bool)
    (_hne : getWordsByDeck deckId st ≠ [])
    (hnd : ((getWordsByDeck deckId st).map (fun w => w.id)).Nodup) :
    ((startGame deckId userId sid now cmp st).2.words.map (fun w => w.wordId)).Perm
        ((getWordsByDeck deckId st).map (fun w => w.id)) ∧
    (startGame deckId userId sid now cmp st).2.words.length
      = (getWordsByDeck deckId st).length ∧
    ((startGame deckId userId sid now cmp st).2.words.map (fun w => w.wordId)).Nodup := by
  have hperm : ((getWordsByDeck deckId st).mergeSort cmp).Perm
      (getWordsByDeck deckId st) := List.mergeSort_perm _ _
  have hmap : (startGame deckId userId sid now cmp st).2.words.map (fun w => w.wordId)
      = ((getWordsByDeck deckId st).mergeSort cmp).map (fun w => w.id) := by
    simp [startGame, List.map_map]
  refine ⟨?_, ?_, ?_⟩
  · rw [hmap]; exact hperm.map _
  · simp only [startGame, List.length_map]
    exact hperm.length_eq
  · rw [hmap]; exact ((hperm.map _).nodup_iff).mpr hnd

/-- Witness deck for C7: the deck-1 words of the mock store. -/
def c7State : ApiState :=
  { mockWords :=
      [ { id := "word-1", text := "你好", deckId := "deck-1" },
        { id := "word-2", text := "謝謝", deckId := "deck-1" },
        { id := "word-3", text := "再見", deckId := "deck-1" } ],
    mockGameSessions := [], mockStatistics := [] }

theorem c7_start_is_permutation_witness :
    ((startGame "deck-1" "student-1" "session-1" "t0" (fun _ _ => true) c7State).2.words.map
        (fun w => w.wordId)).Perm
        ((getWordsByDeck "deck-1" c7State).map (fun w => w.id)) ∧
    (startGame "deck-1" "student-1" "session-1" "t0" (fun _ _ => true) c7State).2.words.length
      = (getWordsByDeck "deck-1" c7State).length ∧
    ((startGame "deck-1" "student-1" "session-1" "t0" (fun _ _ => true) c7State).2.words.map
        (fun w => w.wordId)).Nodup :=
  c7_start_is_permutation c7State "deck-1" "student-1" "session-1" "t0"
    (fun _ _ => true) (by decide) (by decide)

/-- Counterexample state for C8: the store has words, but none in deck-404. -/
def c8State : ApiState :=
  { mockWords := [{ id := "word-1", text := "你好", deckId := "deck-1" }],
    mockGameSessions := [], mockStatistics := [] }

/-- Claim C8 counterexample: startGame on an empty deck does not fail with
EmptyDeckError — the operation has no failure path — and a session is
created: the stored session list grows by one, holding an empty word list. -/
theorem c8_empty_deck_creates_session :
    (startGame "deck-404" "student-1" "session-9" "t0" (fun _ _ => true)
        c8State).2.words = [] ∧
    (startGame "deck-404" "student-1" "session-9" "t0" (fun _ _ => true)
        c8State).1.mockGameSessions.length
      = c8State.mockGameSessions.length + 1 := by
  constructor <;> simp [startGame, getWordsByDeck, c8State, List.filter]

/-- Claim C8 amended: startGame performs no emptiness check: on a deck with
no words it still succeeds, appending to the store a session whose word list
is empty. -/
theorem c8_no_empty_deck_guard (st : ApiState) (deckId userId sid now : String)
    (cmp : Word → Word → Bool) (hempty : getWordsByDeck deckId st = []) :
    (startGame deckId userId sid now cmp st).2.words = [] ∧
    (startGame deckId userId sid now cmp st).1.mockGameSessions
      = st.mockGameSessions ++ [(startGame deckId userId sid now cmp st).2] := by
  constructor <;> simp [startGame, hempty]

/-- Witness for C8 amended at the C8 counterexample state. -/
theorem c8_no_empty_deck_guard_witness :
    (startGame "deck-404" "student-1" "session-9" "t0" (fun _ _ => true)
        c8State).2.words = [] ∧
    (startGame "deck-404" "student-1" "session-9" "t0" (fun _ _ => true)
        c8State).1.mockGameSessions
      = c8State.mockGameSessions
          ++ [(startGame "deck-404" "student-1" "session-9" "t0"
                (fun _ _ => true) c8State).2] :=
  c8_no_empty_deck_guard c8State "deck-404" "student-1" "session-9" "t0"
    (fun _ _ => true) (by decide)

/-- The returned session of endGame, when it succeeds. -/
def endGameResult (sid now : String) (st : ApiState) : Option GameSession :=
  match endGame sid now st with
  | Except.ok (_, g) => some g
  | Except.error _ => none

/-- Claim C9 counterexample: the average-response-time division is not
guarded: ending the zero-word session that an empty deck produces stores the
score NaN, not 0 and not any well-defined integer. -/
theorem c9_empty_session_scores_nan :
    ((endGameResult "session-9" "t1"
        (startGame "deck-404" "student-1" "session-9" "t0" (fun _ _ => true)
          c8State).1).map (fun g => g.score)) = some (some JSNum.nan) := by
  simp [startGame, getWordsByDeck, c8State, List.filter, endGameResult,
    endGame, List.find?, computeScore_nil]

/-- Claim C9 amended: for a session with at least one word the computed score
is a well-defined natural number, and a session whose slots are all at their
incorrect, zero-millisecond initialization (zero attempted words) scores 0;
but the division is unguarded, so a session over an empty word list is
scored NaN. -/
theorem c9_score_welldefined_except_empty (ws : List GameWord) (h : ws ≠ []) :
    (∃ n : ℕ, computeScore ws = JSNum.num n) ∧
    ((∀ w ∈ ws, w.isCorrect = false ∧ w.responseTime = 0) →
      computeScore ws = JSNum.num 0) ∧
    computeScore [] = JSNum.nan := by
  refine ⟨?_, ?_, computeScore_nil⟩
  · rw [computeScore_eq_specScore ws h]
    refine ⟨(specScore (ws.map fun w => (w.isCorrect, w.responseTime))).toNat, ?_⟩
    have hnn : 0 ≤ specScore (ws.map fun w => (w.isCorrect, w.responseTime)) :=
      le_max_left _ _
    congr 1
    exact_mod_cast (Int.toNat_of_nonneg hnn).symm
  · intro hall
    rw [computeScore_eq_specScore ws h]
    have hzero : specScore (ws.map fun w => (w.isCorrect, w.responseTime)) = 0 := by
      unfold specScore
      have hc2 : ((ws.map fun w => (w.isCorrect, w.responseTime)).filter
          (fun p => p.1)) = [] := by
        rw [List.filter_eq_nil_iff]
        intro p hp
        obtain ⟨w, hw, hpe⟩ := List.mem_map.mp hp
        rw [← hpe]
        simp [(hall w hw).1]
      have ht2 : (((ws.map fun w => (w.isCorrect, w.responseTime)).map
          (fun p => p.2)).sum : ℕ) = 0 := by
        rw [List.map_map]
        apply List.sum_eq_zero
        intro x hx
        obtain ⟨w, hw, hxe⟩ := List.mem_map.mp hx
        rw [← hxe]
        exact (hall w hw).2
      rw [hc2, ht2]
      norm_num
    rw [hzero]
    norm_num

/-- Witness for C9 amended at the scenario word list. -/
theorem c9_score_welldefined_except_empty_witness :
    (∃ n : ℕ, computeScore scenarioWords = JSNum.num n) ∧
    ((∀ w ∈ scenarioWords, w.isCorrect = false ∧ w.responseTime = 0) →
      computeScore scenarioWords = JSNum.num 0) ∧
    computeScore [] = JSNum.nan :=
  c9_score_welldefined_except_empty scenarioWords (by simp [scenarioWords])

theorem bestScore_update_mono (s : GameSession)
    (m : List (String × GameStatistics)) (b : ℚ)
    (hb : bestScoreOf s.userId m = JSNum.num b) (hs : realScored s) :
    ∃ b2 : ℚ, bestScoreOf s.userId (updateStatistics s m) = JSNum.num b2 ∧
      b ≤ b2 := by
  have hkey : bestScoreOf s.userId (updateStatistics s m)
      = (updateStatisticsRecord s (lookupStat (s.userId ++ "-all") m)).bestScore := by
    simp [bestScoreOf, updateStatistics, statsKey, lookupStat_setStat]
  rw [hkey, best_updateRecord]
  by_cases htr : scoreTruthy s.score = true
  · rw [if_pos htr]
    cases hx : s.score with
    | none => rw [hx] at htr; simp [scoreTruthy] at htr
    | some x =>
      rcases hs x hx with hnan | ⟨q, hq⟩
      · rw [hnan] at hx; rw [hx] at htr; simp [scoreTruthy] at htr
      · subst hq
        refine ⟨max b q, ?_, le_max_left b q⟩
        have hprior : ((lookupStat (s.userId ++ "-all") m).getD defaultStats).bestScore
            = JSNum.num b := hb
        simp [scoreVal, hprior, JSNum.jmax]
  · rw [if_neg htr]
    exact ⟨b, hb, le_refl b⟩

theorem bestScore_foldl_mono (u : String) (sessions : List GameSession) :
    ∀ (m0 : List (String × GameStatistics)) (b0 : ℚ),
      bestScoreOf u m0 = JSNum.num b0 →
      (∀ s ∈ sessions, s.userId = u) →
      (∀ s ∈ sessions, realScored s) →
      ∃ b1 : ℚ, bestScoreOf u
          (sessions.foldl (fun m s => updateStatistics s m) m0) = JSNum.num b1 ∧
        b0 ≤ b1 := by
  induction sessions with
  | nil => exact fun m0 b0 hb _ _ => ⟨b0, hb, le_refl b0⟩
  | cons s ss ih =>
    intro m0 b0 hb hu hs
    have hsu : s.userId = u := hu s (by simp)
    have hb0 : bestScoreOf s.userId m0 = JSNum.num b0 := by rw [hsu]; exact hb
    obtain ⟨b2, hb2, hle⟩ := bestScore_update_mono s m0 b0 hb0 (hs s (by simp))
    rw [hsu] at hb2
    obtain ⟨b1, hb1, hle2⟩ := ih (updateStatistics s m0) b2 hb2
      (fun t ht => hu t (by simp [ht])) (fun t ht => hs t (by simp [ht]))
    exact ⟨b1, hb1, le_trans hle hle2⟩

/-- Claim C10: across every sequence of session-end statistics updates for a
user, the recorded bestScore never decreases, and an update by a session with
a well-defined score replaces bestScore with the maximum of its previous
value and that score. -/
theorem c10_bestScore_never_decreases (u : String) (sessions : List GameSession)
    (m0 : List (String × GameStatistics)) (b0 : ℚ)
    (hb : bestScoreOf u m0 = JSNum.num b0) (h0 : 0 ≤ b0)
    (hu : ∀ s ∈ sessions, s.userId = u)
    (hs : ∀ s ∈ sessions, realScored s) :
    (∃ b1 : ℚ, bestScoreOf u
        (sessions.foldl (fun m s => updateStatistics s m) m0) = JSNum.num b1 ∧
      b0 ≤ b1) ∧
    (∀ s : GameSession, ∀ q : ℚ, s.userId = u → s.score = some (JSNum.num q) →
      bestScoreOf u (updateStatistics s m0) = JSNum.num (max b0 q)) := by
  refine ⟨bestScore_foldl_mono u sessions m0 b0 hb hu hs, ?_⟩
  intro s q hsu hscore
  have hprior : ((lookupStat (u ++ "-all") m0).getD defaultStats).bestScore
      = JSNum.num b0 := hb
  have hkey : bestScoreOf u (updateStatistics s m0)
      = (updateStatisticsRecord s (lookupStat (u ++ "-all") m0)).bestScore := by
    simp [bestScoreOf, updateStatistics, statsKey, hsu, lookupStat_setStat]
  rw [hkey, best_updateRecord]
  by_cases hq : q = 0
  · subst hq
    have htr : scoreTruthy s.score = false := by simp [hscore, scoreTruthy]
    rw [htr, if_neg (by simp), hprior, max_eq_left h0]
  · have htr : scoreTruthy s.score = true := by simp [hscore, scoreTruthy, hq]
    rw [if_pos htr, hscore]
    simp [scoreVal, hprior, JSNum.jmax]

/-- Witness session for C10: an ended session of the user scored 100. -/
def c10Session : GameSession :=
  { id := "session-2", userId := "student-1", deckId := "deck-1",
    startTime := "t0", endTime := some "t1", score := some (JSNum.num 100),
    words := [] }

theorem c10_bestScore_never_decreases_witness :
    (∃ b1 : ℚ, bestScoreOf "student-1"
        ([c10Session].foldl (fun m s => updateStatistics s m) []) = JSNum.num b1 ∧
      (0 : ℚ) ≤ b1) ∧
    (∀ s : GameSession, ∀ q : ℚ, s.userId = "student-1" →
      s.score = some (JSNum.num q) →
      bestScoreOf "student-1" (updateStatistics s []) = JSNum.num (max 0 q)) :=
  c10_bestScore_never_decreases "student-1" [c10Session] [] 0 rfl (le_refl 0)
    (fun s hmem => by rw [List.mem_singleton] at hmem; rw [hmem]; rfl)
    (fun s hmem => by
      rw [List.mem_singleton] at hmem
      rw [hmem]
      intro x hx
      exact Or.inr ⟨100, (Option.some.inj hx).symm⟩)

end CantoneseGame
